import Mathlib

/-!
Shallow embedding of the Guruji chat relay: the Express server
(`server.js`: `DeepSeekService.generateResponse`, `app.post('/api/chat')`)
and the browser client (`script.js`: `GurujiChat`).  Pure functions model
each handler; the nondeterministic inputs of a run (the upstream HTTP
outcome, the value of `Math.random`) are explicit parameters.
-/

/-- A chat message `{ role, content }`; `role` is one of the strings
"system", "user", "assistant" in well-formed traffic, but the code never
restricts it, so we keep it a plain `String`. -/
structure Message where
  role : String
  content : String
deriving DecidableEq, Repr

/- ===================== server: server.js ===================== -/

/-- The persona system prompt injected by `app.post('/api/chat')`. -/
def personaSystemMessage : Message :=
  { role := "system"
    content := "You are Guruji, a wise, compassionate spiritual teacher. You speak in calm, metaphorical language. Offer profound yet practical wisdom. Keep responses concise (2-4 sentences). Use Sanskrit terms occasionally. You embody patience and ancient wisdom." }

/-- `messages.some(msg => msg.role === 'system')`. -/
def hasSystemPrompt (messages : List Message) : Bool :=
  messages.any (fun msg => msg.role == "system")

/-- The `chatMessages` computed by the `/api/chat` handler: the caller's
list, with the persona prompt prepended when no system-role message is
present. -/
def buildChatMessages (messages : List Message) : List Message :=
  if hasSystemPrompt messages then messages
  else personaSystemMessage :: messages

/-- An axios failure as `generateResponse`'s catch block distinguishes it:
either `error.response` exists (an HTTP response with a status), or there
is no response and the error carries a code string (axios sets
`ECONNABORTED` on timeout). -/
inductive UpstreamError where
  | response (status : Nat)
  | noResponse (code : String)
deriving DecidableEq, Repr

/-- The `code` field produced by `generateResponse`'s catch block
(the `switch (error.response.status)` and the `ECONNABORTED` test). -/
def errorKind : UpstreamError → String
  | .response status =>
      if status = 401 then "INVALID_API_KEY"
      else if status = 429 then "RATE_LIMITED"
      else if status = 503 ∨ status = 504 then "SERVICE_UNAVAILABLE"
      else "API_ERROR"
  | .noResponse code =>
      if code = "ECONNABORTED" then "TIMEOUT" else "NETWORK_ERROR"

/-- The `error` field produced by `generateResponse`'s catch block. -/
def errorMessage : UpstreamError → String
  | .response status =>
      if status = 401 then "Invalid API key. Please check your DeepSeek API key."
      else if status = 429 then "Rate limit exceeded. Please try again later."
      else if status = 503 ∨ status = 504 then "DeepSeek service is temporarily unavailable."
      else "API error: " ++ toString status
  | .noResponse code =>
      if code = "ECONNABORTED" then "Request timeout. The server took too long to respond."
      else "Network error. Could not reach DeepSeek API."

/-- Outcome of the `axios.post` call to DeepSeek, as an input to the model:
a successful completion with content, or a failure. -/
inductive UpstreamOutcome where
  | success (content : String)
  | failure (e : UpstreamError)
deriving DecidableEq, Repr

/-- Return value of `DeepSeekService.generateResponse`. -/
inductive GenResult where
  | ok (content : String)
  | err (error : String) (code : String)
deriving DecidableEq, Repr

/-- `DeepSeekService.generateResponse`, as a function of the upstream
outcome: on success it returns the content, on failure the mapped
error message and code. -/
def generateResponse (outcome : UpstreamOutcome) : GenResult :=
  match outcome with
  | .success content => .ok content
  | .failure e => .err (errorMessage e) (errorKind e)

/-- The `messages` field of the request body as `/api/chat` validates it:
absent (or otherwise falsy), present but not an array, or an array of
messages.  `!messages || !Array.isArray(messages)` rejects exactly the
first two shapes. -/
inductive MessagesField where
  | absent
  | notArray
  | array (messages : List Message)
deriving Repr

/-- The server's `fallbackResponses` pool. -/
def fallbackResponses : List String :=
  [ "🌿 The cosmic connection is momentarily interrupted. Please try again in a moment."
  , "🕉️ I feel the energy shifting. Let us wait a breath before continuing."
  , "📜 The ancient scrolls are being redacted. The sage will return shortly."
  , "✨ The stars need realignment. Guruji will be with you soon." ]

/-- `fallbackResponses[Math.floor(Math.random() * fallbackResponses.length)]`,
with the random draw given as a natural number reduced mod the pool size. -/
def pickFallback (r : Nat) : String :=
  fallbackResponses.getD (r % 4) ""

/-- The JSON response of `/api/chat`: `200 {success:true, content, ...}` or
`status {success:false, error, code, fallback?}`. -/
inductive ChatResponse where
  | ok (content : String)
  | fail (status : Nat) (error : String) (code : String) (fallback : Option String)
deriving DecidableEq, Repr

/-- The HTTP status of a `ChatResponse` (`res.json` without `res.status` is 200). -/
def ChatResponse.statusField : ChatResponse → Nat
  | .ok _ => 200
  | .fail status _ _ _ => status

/-- The `fallback` field of a `ChatResponse` body, when present. -/
def ChatResponse.fallbackField : ChatResponse → Option String
  | .ok _ => none
  | .fail _ _ _ fallback => fallback

/-- The `code` field of a `ChatResponse` body, when present. -/
def ChatResponse.codeField : ChatResponse → Option String
  | .ok _ => none
  | .fail _ _ code _ => some code

/-- What one `/api/chat` request did: the messages list passed to
`deepseek.generateResponse` (if the call was made at all), and the HTTP
response sent back. -/
structure ChatOutcome where
  upstreamCall : Option (List Message)
  response : ChatResponse
deriving DecidableEq, Repr

/-- The `/api/chat` handler.  `upstream` gives the outcome of the DeepSeek
call for the messages actually sent; `r` is the random draw for the
fallback pool. -/
def handleChat (body : MessagesField) (upstream : List Message → UpstreamOutcome)
    (r : Nat) : ChatOutcome :=
  match body with
  | .absent =>
      { upstreamCall := none
        response := .fail 400 "Invalid request format. Expected messages array."
          "INVALID_REQUEST" none }
  | .notArray =>
      { upstreamCall := none
        response := .fail 400 "Invalid request format. Expected messages array."
          "INVALID_REQUEST" none }
  | .array messages =>
      let chatMessages := buildChatMessages messages
      match generateResponse (upstream chatMessages) with
      | .ok content =>
          { upstreamCall := some chatMessages, response := .ok content }
      | .err error code =>
          { upstreamCall := some chatMessages
            response := .fail 503 error code (some (pickFallback r)) }

/- ===================== client: script.js ===================== -/

/-- JS `array.slice(-n)` for `n > 0`: the last `n` elements (all of them
when the array is shorter). -/
def lastN (n : Nat) (l : List Message) : List Message :=
  l.drop (l.length - n)

/-- JS `String.prototype.trim`: strips leading and trailing whitespace,
modelled on the character list. -/
def jsTrim (s : String) : String :=
  ⟨((s.data.dropWhile Char.isWhitespace).reverse.dropWhile
      Char.isWhitespace).reverse⟩

/-- The client state that `handleUserMessage` reads and writes before the
request goes out: the single-flight busy flag and the message history. -/
structure ClientState where
  isProcessing : Bool
  messageHistory : List Message
deriving DecidableEq, Repr

/-- The front half of `GurujiChat.handleUserMessage` together with the
request body built by `sendToBackend`: trims the input, returns unchanged
state and no request when the trimmed text is empty or a submission is in
flight; otherwise sets the busy flag, appends the user message to history,
and sends `messageHistory.slice(-10)` as the request's messages. -/
def submit (st : ClientState) (input : String) : ClientState × Option (List Message) :=
  let message := jsTrim input
  if message == "" || st.isProcessing then (st, none)
  else
    let history := st.messageHistory ++ [{ role := "user", content := message }]
    ({ isProcessing := true, messageHistory := history }, some (lastN 10 history))

/-- The JSON body of a `/api/chat` reply as the client reads it
(`data.success`, `data.content`, `data.fallback`; a field the server did
not send is `none`). -/
structure ChatReplyData where
  success : Bool
  content : Option String
  fallback : Option String
deriving DecidableEq, Repr

/-- Outcome of the client's `fetch('/api/chat')`: a reply with its
`response.ok` flag and parsed body, or a rejected promise (server
unreachable). -/
inductive FetchResult where
  | reply (ok : Bool) (data : ChatReplyData)
  | unreachable
deriving DecidableEq, Repr

/-- JS truthiness of a possibly-absent string field: absent and `""` are
falsy. -/
def truthy : Option String → Bool
  | some s => !(s == "")
  | none => false

/-- What `sendToBackend` hands back to `handleUserMessage`: a value, or a
thrown exception (caught there as a network error). -/
inductive SendResult where
  | value (data : ChatReplyData)
  | thrown
deriving DecidableEq, Repr

/-- The tail of `GurujiChat.sendToBackend`: when `response.ok` is false it
returns `{success:true, content:data.fallback}` if the body has a truthy
fallback and otherwise throws; when `response.ok` is true it returns the
body as is. -/
def sendToBackend : FetchResult → SendResult
  | .reply ok data =>
      if !ok then
        if truthy data.fallback then
          .value { success := true, content := data.fallback, fallback := none }
        else .thrown
      else .value data
  | .unreachable => .thrown

/-- The client's local `errorMessages` pool in `handleAPIError`. -/
def errorMessages : List String :=
  [ "🌱 The cosmic winds are turbulent. Guruji will return when the skies clear."
  , "📜 The ancient scrolls are momentarily hidden. Please try again."
  , "🕉️ The energy needs to settle. Ask again in a few breaths."
  , "✨ The stars need realignment. Your patience brings wisdom." ]

/-- `errorMessages[Math.floor(Math.random() * errorMessages.length)]`. -/
def pickErrorMessage (r : Nat) : String :=
  errorMessages.getD (r % 4) ""

/-- The fixed message of `GurujiChat.handleNetworkError`. -/
def networkErrorMessage : String :=
  "🔮 The connection to Guruji's realm is unstable. Please check your network."

/-- `GurujiChat.handleAPIError`: shows `error.fallback || errorMessages[...]`
and appends it to history as an assistant message. -/
def handleAPIError (data : ChatReplyData) (r : Nat) : Message :=
  let fallbackMessage :=
    match data.fallback with
    | some f => if f = "" then pickErrorMessage r else f
    | none => pickErrorMessage r
  { role := "assistant", content := fallbackMessage }

/-- The assistant `Message` that `handleUserMessage` appends to history
after `sendToBackend` settles: the response content on success, the
`handleAPIError` text on an ok-but-unsuccessful body, the fixed network
message when `sendToBackend` threw.  A success body always carries
content in the relay's contract; an absent one is modelled as `""`. -/
def shownMessage (fr : FetchResult) (r : Nat) : Message :=
  match sendToBackend fr with
  | .thrown => { role := "assistant", content := networkErrorMessage }
  | .value data =>
      if data.success then { role := "assistant", content := data.content.getD "" }
      else handleAPIError data r

/-- The history after `handleUserMessage`'s response handling: every path
pushes exactly the shown message. -/
def afterSend (history : List Message) (fr : FetchResult) (r : Nat) : List Message :=
  history ++ [shownMessage fr r]

/-- Connectivity status written by `updateConnectionStatus`. -/
inductive ConnStatus where
  | connecting
  | connected
  | error
deriving DecidableEq, Repr

/-- The connectivity state `checkConnection` manipulates. -/
structure ConnState where
  status : ConnStatus
  reconnectAttempts : Nat
deriving DecidableEq, Repr

/-- `this.maxReconnectAttempts`. -/
def maxReconnectAttempts : Nat := 3

/-- Result of one `checkConnection` round: the new state, and whether a
retry was scheduled (`setTimeout(() => this.checkConnection(), 2000)`). -/
structure ConnStep where
  state : ConnState
  retryScheduled : Bool
deriving DecidableEq, Repr

/-- One round of `GurujiChat.checkConnection`, as a function of whether
the `/api/health` probe succeeded: success resets the attempt counter and
marks the session connected; failure increments it and either stays
connecting with a scheduled retry (counter still within the ceiling) or
marks the session errored with no retry. -/
def checkConnection (st : ConnState) (probeOk : Bool) : ConnStep :=
  if probeOk then
    { state := { status := .connected, reconnectAttempts := 0 }, retryScheduled := false }
  else
    let attempts := st.reconnectAttempts + 1
    if attempts ≤ maxReconnectAttempts then
      { state := { status := .connecting, reconnectAttempts := attempts }
        retryScheduled := true }
    else
      { state := { status := .error, reconnectAttempts := attempts }
        retryScheduled := false }

/-- A concrete 12-entry prior history, for evaluating `submit` on the
spec's 12-message example. -/
def exHistory : List Message :=
  (List.range 12).map (fun i => { role := "user", content := toString i })

/-- The history right after `submit` appends the user message "question"
to `exHistory` (13 entries). -/
def exSubmitHistory : List Message :=
  exHistory ++ [{ role := "user", content := "question" }]

/- ===================== helper lemmas ===================== -/

theorem handleChat_array_upstreamCall (msgs : List Message)
    (u : List Message → UpstreamOutcome) (r : Nat) :
    (handleChat (.array msgs) u r).upstreamCall = some (buildChatMessages msgs) := by
  unfold handleChat
  cases h : generateResponse (u (buildChatMessages msgs)) <;> simp [h]

theorem countP_system_eq_zero (msgs : List Message)
    (h : hasSystemPrompt msgs = false) :
    msgs.countP (fun m => m.role == "system") = 0 := by
  simp only [hasSystemPrompt, List.any_eq_false] at h
  rw [List.countP_eq_zero]
  exact h

/- ===================== claims ===================== -/

/-- C1: a chat request whose messages contain no system-role message has
exactly the persona system message prepended before the upstream call;
a request already containing a system-role message is passed upstream
unmodified and in the same order. -/
theorem chat_injects_persona_iff_missing (msgs : List Message)
    (u : List Message → UpstreamOutcome) (r : Nat) :
    (hasSystemPrompt msgs = false →
      (handleChat (.array msgs) u r).upstreamCall
          = some (personaSystemMessage :: msgs)) ∧
    (hasSystemPrompt msgs = true →
      (handleChat (.array msgs) u r).upstreamCall = some msgs) := by
  constructor <;> intro h <;>
    simp [handleChat_array_upstreamCall, buildChatMessages, h]

/-- Witness for C1 at a one-message history without a system message and
at a history that already starts with one. -/
theorem chat_injects_persona_iff_missing_witness :
    (handleChat (.array [{ role := "user", content := "hi" }])
        (fun _ => .success "om") 0).upstreamCall
      = some (personaSystemMessage :: [{ role := "user", content := "hi" }]) ∧
    (handleChat (.array [{ role := "system", content := "s" }])
        (fun _ => .success "om") 0).upstreamCall
      = some [{ role := "system", content := "s" }] :=
  ⟨(chat_injects_persona_iff_missing _ _ _).1 rfl,
   (chat_injects_persona_iff_missing _ _ _).2 rfl⟩

/-- C2 counterexample: a caller whose messages hold a system message that
is not first is forwarded verbatim, so the list sent upstream does not
start with a system-role message, refuting the exactly-one-leading-system
invariant for that accepted request. -/
theorem upstream_leading_system_cex :
    ¬ (((handleChat (.array [{ role := "user", content := "hi" },
          { role := "system", content := "be brief" }])
          (fun _ => .success "om") 0).upstreamCall.getD []).countP
            (fun m => m.role == "system") = 1 ∧
       ((handleChat (.array [{ role := "user", content := "hi" },
          { role := "system", content := "be brief" }])
          (fun _ => .success "om") 0).upstreamCall.getD []).head?.map Message.role
          = some "system") := by
  decide

/-- C2 amended: for accepted requests whose messages contain no
system-role message, the list sent upstream is the persona message
followed by the caller's messages, hence has exactly one system-role
message and it is first; requests already containing a system-role
message are forwarded verbatim (for them the invariant can fail). -/
theorem upstream_system_invariant_amended (msgs : List Message)
    (u : List Message → UpstreamOutcome) (r : Nat) :
    (hasSystemPrompt msgs = false →
      (handleChat (.array msgs) u r).upstreamCall
          = some (personaSystemMessage :: msgs) ∧
      (personaSystemMessage :: msgs).countP (fun m => m.role == "system") = 1 ∧
      (personaSystemMessage :: msgs).head? = some personaSystemMessage) ∧
    (hasSystemPrompt msgs = true →
      (handleChat (.array msgs) u r).upstreamCall = some msgs) := by
  constructor
  · intro h
    refine ⟨?_, ?_, rfl⟩
    · simp [handleChat_array_upstreamCall, buildChatMessages, h]
    · rw [List.countP_cons_of_pos _ _ (by rfl), countP_system_eq_zero msgs h]
  · intro h
    simp [handleChat_array_upstreamCall, buildChatMessages, h]

/-- Witness for C2 amended at a one-message history without a system
message. -/
theorem upstream_system_invariant_amended_witness :
    (handleChat (.array [{ role := "user", content := "hi" }])
        (fun _ => .success "om") 0).upstreamCall
      = some (personaSystemMessage :: [{ role := "user", content := "hi" }]) ∧
    (personaSystemMessage :: [{ role := "user", content := "hi" }]).countP
        (fun m => m.role == "system") = 1 :=
  have t := (upstream_system_invariant_amended
      [{ role := "user", content := "hi" }] (fun _ => .success "om") 0).1 rfl
  ⟨t.1, t.2.1⟩

/-- C3: the errorKind is a fixed function of the upstream failure: 401,
429, 503, 504 map to their fixed kinds, any other HTTP status to
API_ERROR, a transport timeout (ECONNABORTED) to TIMEOUT, and any other
transport failure to NETWORK_ERROR, with TIMEOUT and NETWORK_ERROR
distinct. -/
theorem errorKind_fixed_mapping :
    errorKind (.response 401) = "INVALID_API_KEY" ∧
    errorKind (.response 429) = "RATE_LIMITED" ∧
    errorKind (.response 503) = "SERVICE_UNAVAILABLE" ∧
    errorKind (.response 504) = "SERVICE_UNAVAILABLE" ∧
    (∀ s : Nat, s ≠ 401 → s ≠ 429 → s ≠ 503 → s ≠ 504 →
      errorKind (.response s) = "API_ERROR") ∧
    errorKind (.noResponse "ECONNABORTED") = "TIMEOUT" ∧
    (∀ c : String, c ≠ "ECONNABORTED" →
      errorKind (.noResponse c) = "NETWORK_ERROR") ∧
    "TIMEOUT" ≠ "NETWORK_ERROR" := by
  refine ⟨rfl, rfl, rfl, rfl, ?_, rfl, ?_, by decide⟩
  · intro s h1 h2 h3 h4
    simp [errorKind, h1, h2, h3, h4]
  · intro c hc
    simp [errorKind, hc]

/-- Witness for C3 at an unrecognized HTTP status and a non-timeout
transport failure. -/
theorem errorKind_fixed_mapping_witness :
    errorKind (.response 500) = "API_ERROR" ∧
    errorKind (.noResponse "ECONNRESET") = "NETWORK_ERROR" :=
  ⟨errorKind_fixed_mapping.2.2.2.2.1 500 (by decide) (by decide) (by decide)
      (by decide),
   errorKind_fixed_mapping.2.2.2.2.2.2.1 "ECONNRESET" (by decide)⟩

theorem pickFallback_ne_empty (r : Nat) : pickFallback r ≠ "" := by
  unfold pickFallback
  rcases h : r % 4 with _ | _ | _ | _ | n
  · decide
  · decide
  · decide
  · decide
  · exact absurd h (by omega)

theorem errorKind_ne_invalid_request (e : UpstreamError) :
    errorKind e ≠ "INVALID_REQUEST" := by
  cases e with
  | response s =>
      simp only [errorKind]
      split
      · decide
      split
      · decide
      split
      · decide
      · decide
  | noResponse c =>
      simp only [errorKind]
      split
      · decide
      · decide

/-- C4 counterexample: the INVALID_REQUEST rejection is a failure
response (HTTP 400, success:false) whose body carries no fallback field
at all, refuting the claim that every failure response includes a
non-empty fallback string. -/
theorem fail_fallback_cex :
    (handleChat .absent (fun _ => .success "om") 0).response.fallbackField = none ∧
    (handleChat .absent (fun _ => .success "om") 0).response.statusField = 400 ∧
    (handleChat .absent (fun _ => .success "om") 0).response.codeField
      = some "INVALID_REQUEST" :=
  ⟨rfl, rfl, rfl⟩

/-- C4 amended: every upstream-failure response of the relay (the 503
branch, covering all upstream errorKinds) includes a non-empty fallback
string drawn from the fallback pool, while the INVALID_REQUEST
rejection carries no fallback field. -/
theorem fail_fallback_amended :
    (∀ (msgs : List Message) (e : UpstreamError) (r : Nat),
      (handleChat (.array msgs) (fun _ => .failure e) r).response.fallbackField
          = some (pickFallback r) ∧ pickFallback r ≠ "") ∧
    (∀ (u : List Message → UpstreamOutcome) (r : Nat),
      (handleChat .absent u r).response.fallbackField = none ∧
      (handleChat .notArray u r).response.fallbackField = none) := by
  refine ⟨fun msgs e r => ⟨rfl, pickFallback_ne_empty r⟩, fun u r => ⟨rfl, rfl⟩⟩

/-- C9: whatever the upstream failure is, and hence whatever errorKind
it maps to, the relay's /api/chat response is the 503 failure body built
from that failure. -/
theorem upstream_failure_status_503 (msgs : List Message) (e : UpstreamError)
    (r : Nat) :
    (handleChat (.array msgs) (fun _ => .failure e) r).response
      = .fail 503 (errorMessage e) (errorKind e) (some (pickFallback r)) :=
  rfl

/-- C10: the relay rejects with INVALID_REQUEST exactly the bodies whose
messages field is absent or not an array (making no upstream call); any
array is accepted and never yields an INVALID_REQUEST code; in
particular the empty array is accepted and the upstream call is made
with just the injected persona system message. -/
theorem invalid_request_iff_not_array :
    (∀ (u : List Message → UpstreamOutcome) (r : Nat),
      (handleChat .absent u r).response
          = .fail 400 "Invalid request format. Expected messages array."
              "INVALID_REQUEST" none ∧
      (handleChat .absent u r).upstreamCall = none ∧
      (handleChat .notArray u r).response
          = .fail 400 "Invalid request format. Expected messages array."
              "INVALID_REQUEST" none ∧
      (handleChat .notArray u r).upstreamCall = none) ∧
    (∀ (msgs : List Message) (u : List Message → UpstreamOutcome) (r : Nat),
      (handleChat (.array msgs) u r).response.codeField ≠ some "INVALID_REQUEST") ∧
    (∀ (u : List Message → UpstreamOutcome) (r : Nat),
      (handleChat (.array []) u r).upstreamCall = some [personaSystemMessage]) := by
  refine ⟨fun u r => ⟨rfl, rfl, rfl, rfl⟩, ?_, fun u r => ?_⟩
  · intro msgs u r
    cases h : u (buildChatMessages msgs) with
    | success c =>
        simp [handleChat, generateResponse, h, ChatResponse.codeField]
    | failure e =>
        simp only [handleChat, generateResponse, h, ChatResponse.codeField,
          ne_eq, Option.some.injEq]
        exact errorKind_ne_invalid_request e
  · rw [handleChat_array_upstreamCall]
    rfl

theorem pickErrorMessage_mem (r : Nat) : pickErrorMessage r ∈ errorMessages := by
  unfold pickErrorMessage
  rcases h : r % 4 with _ | _ | _ | _ | n
  · decide
  · decide
  · decide
  · decide
  · exact absurd h (by omega)

/-- C5 counterexample: a failed chat call (HTTP not ok) whose body has no
fallback makes `sendToBackend` throw, so the client shows the fixed
network-failure message, which is not a phrase of the local fallback
set, refuting the claim that such a failure shows a locally chosen
fallback phrase. -/
theorem client_fallback_cex :
    shownMessage (.reply false { success := false, content := none, fallback := none }) 0
        = { role := "assistant", content := networkErrorMessage } ∧
    networkErrorMessage ∉ errorMessages :=
  ⟨rfl, by decide⟩

/-- C5 amended: a failed HTTP reply with a truthy fallback shows exactly
the relay's fallback text; a failed HTTP reply without one, like a total
network failure, shows the distinct fixed network message; the local
fallback set is used only when an HTTP-ok body carries success:false
without a truthy fallback; and every outcome appends the shown text to
history as an assistant-role Message. -/
theorem client_failure_handling_amended :
    (∀ (data : ChatReplyData) (r : Nat), truthy data.fallback = true →
      shownMessage (.reply false data) r
          = { role := "assistant", content := data.fallback.getD "" }) ∧
    (∀ (data : ChatReplyData) (r : Nat), truthy data.fallback = false →
      shownMessage (.reply false data) r
          = { role := "assistant", content := networkErrorMessage }) ∧
    (∀ r : Nat, shownMessage .unreachable r
          = { role := "assistant", content := networkErrorMessage }) ∧
    (∀ (data : ChatReplyData) (r : Nat), data.success = false →
      truthy data.fallback = true →
      shownMessage (.reply true data) r
          = { role := "assistant", content := data.fallback.getD "" }) ∧
    (∀ (data : ChatReplyData) (r : Nat), data.success = false →
      truthy data.fallback = false →
      shownMessage (.reply true data) r
          = { role := "assistant", content := pickErrorMessage r } ∧
      pickErrorMessage r ∈ errorMessages) ∧
    (∀ (history : List Message) (fr : FetchResult) (r : Nat),
      afterSend history fr r = history ++ [shownMessage fr r] ∧
      (shownMessage fr r).role = "assistant") := by
  refine ⟨?_, ?_, fun r => rfl, ?_, ?_, ?_⟩
  · intro data r h
    simp [shownMessage, sendToBackend, h]
  · intro data r h
    simp [shownMessage, sendToBackend, h]
  · intro data r hs hf
    cases hfb : data.fallback with
    | none => rw [hfb] at hf; exact absurd hf (by decide)
    | some f =>
        rw [hfb] at hf
        simp only [truthy, Bool.not_eq_true', beq_eq_false_iff_ne, ne_eq] at hf
        simp [shownMessage, sendToBackend, hs, handleAPIError, hfb, hf]
  · intro data r hs hf
    refine ⟨?_, pickErrorMessage_mem r⟩
    cases hfb : data.fallback with
    | none => simp [shownMessage, sendToBackend, hs, handleAPIError, hfb]
    | some f =>
        rw [hfb] at hf
        simp only [truthy, Bool.not_eq_false', beq_iff_eq] at hf
        simp [shownMessage, sendToBackend, hs, handleAPIError, hfb, hf]
  · intro history fr r
    refine ⟨rfl, ?_⟩
    unfold shownMessage
    cases h : sendToBackend fr with
    | thrown => rfl
    | value data =>
        dsimp only
        split
        · rfl
        · rfl

/-- Witness for C5 amended: a 503-style reply with fallback "fall" shows
"fall"; an ok reply with success:false and no fallback shows a phrase of
the local set. -/
theorem client_failure_handling_amended_witness :
    shownMessage (.reply false { success := false, content := none, fallback := some "fall" }) 0
        = { role := "assistant", content := "fall" } ∧
    shownMessage (.reply true { success := false, content := none, fallback := none }) 0
        = { role := "assistant", content := pickErrorMessage 0 } ∧
    pickErrorMessage 0 ∈ errorMessages :=
  have t1 := client_failure_handling_amended.1
      { success := false, content := none, fallback := some "fall" } 0 (by decide)
  have t5 := client_failure_handling_amended.2.2.2.2.1
      { success := false, content := none, fallback := none } 0 rfl rfl
  ⟨t1, t5.1, t5.2⟩

/-- C6: whenever `submit` sends a request, its messages list is the last
10 entries of the history at send time (all of it when shorter): a
suffix, in order, of length `min (length) 10`. -/
theorem submit_sends_last_ten (st : ClientState) (input : String)
    (sent : List Message) (h : (submit st input).2 = some sent) :
    sent = lastN 10 (submit st input).1.messageHistory ∧
    sent.length = min (submit st input).1.messageHistory.length 10 ∧
    sent <:+ (submit st input).1.messageHistory := by
  simp only [submit] at h ⊢
  split at h
  next hc =>
    simp at h
  next hc =>
    rw [if_neg hc]
    dsimp only at h ⊢
    have he : lastN 10 (st.messageHistory
        ++ [{ role := "user", content := jsTrim input }]) = sent :=
      Option.some.inj h
    subst he
    refine ⟨rfl, ?_, List.drop_suffix _ _⟩
    simp only [lastN, List.length_drop]
    omega

/-- Witness for C6 on the spec's example: 12 prior history entries, so 13
at send time, and the request body is exactly the last 10 of them. -/
theorem submit_sends_last_ten_witness :
    lastN 10 exSubmitHistory
        = lastN 10 (submit { isProcessing := false, messageHistory := exHistory }
            "question").1.messageHistory ∧
    (lastN 10 exSubmitHistory).length
        = min (submit { isProcessing := false, messageHistory := exHistory }
            "question").1.messageHistory.length 10 ∧
    lastN 10 exSubmitHistory
        <:+ (submit { isProcessing := false, messageHistory := exHistory }
            "question").1.messageHistory ∧
    (lastN 10 exSubmitHistory).length = 10 ∧
    (submit { isProcessing := false, messageHistory := exHistory }
        "question").1.messageHistory.length = 13 :=
  have t := submit_sends_last_ten
      { isProcessing := false, messageHistory := exHistory } "question"
      (lastN 10 exSubmitHistory) rfl
  ⟨t.1, t.2.1, t.2.2, rfl, rfl⟩

/-- C7: `submit` is a no-op (state unchanged, no request) exactly when
the trimmed input is empty or a submission is in flight; otherwise it
sets the busy flag, appends the user message, and sends a request. -/
theorem submit_noop_or_proceed (st : ClientState) (input : String) :
    ((jsTrim input == "" || st.isProcessing) = true →
      submit st input = (st, none)) ∧
    ((jsTrim input == "" || st.isProcessing) = false →
      submit st input
        = ({ isProcessing := true,
             messageHistory := st.messageHistory
               ++ [{ role := "user", content := jsTrim input }] },
           some (lastN 10 (st.messageHistory
               ++ [{ role := "user", content := jsTrim input }])))) := by
  constructor <;> intro h <;> simp [submit, h]

/-- Witness for C7: whitespace-only input and an in-flight submission are
no-ops; a plain word on an idle session proceeds. -/
theorem submit_noop_or_proceed_witness :
    submit { isProcessing := false, messageHistory := [] } "   "
        = ({ isProcessing := false, messageHistory := [] }, none) ∧
    submit { isProcessing := true, messageHistory := [] } "hello"
        = ({ isProcessing := true, messageHistory := [] }, none) ∧
    submit { isProcessing := false, messageHistory := [] } "hello"
        = ({ isProcessing := true,
             messageHistory := [{ role := "user", content := "hello" }] },
           some (lastN 10 [{ role := "user", content := "hello" }])) :=
  ⟨(submit_noop_or_proceed _ _).1 (by decide),
   (submit_noop_or_proceed _ _).1 (by decide),
   (submit_noop_or_proceed _ _).2 (by decide)⟩

/-- C8: a successful probe moves the session to connected (resetting the
attempt counter) with no retry scheduled; a failed probe below the
attempt ceiling stays connecting with a retry scheduled; a failed probe
at or past the ceiling moves to the error state with no retry scheduled
(terminal: nothing further is triggered). -/
theorem connectivity_state_machine (st : ConnState) :
    checkConnection st true
        = { state := { status := .connected, reconnectAttempts := 0 },
            retryScheduled := false } ∧
    (st.reconnectAttempts < maxReconnectAttempts →
      checkConnection st false
        = { state := { status := .connecting,
                       reconnectAttempts := st.reconnectAttempts + 1 },
            retryScheduled := true }) ∧
    (maxReconnectAttempts ≤ st.reconnectAttempts →
      checkConnection st false
        = { state := { status := .error,
                       reconnectAttempts := st.reconnectAttempts + 1 },
            retryScheduled := false }) := by
  refine ⟨rfl, ?_, ?_⟩
  · intro h
    have h3 : st.reconnectAttempts + 1 ≤ maxReconnectAttempts := h
    simp [checkConnection, h3]
  · intro h
    have h3 : ¬ (st.reconnectAttempts + 1 ≤ maxReconnectAttempts) := by
      simp only [maxReconnectAttempts] at h ⊢
      omega
    simp [checkConnection, h3]

/-- Witness for C8: a fresh session connects on a good probe, retries on
a first failure, and goes terminal after the attempts are exhausted. -/
theorem connectivity_state_machine_witness :
    checkConnection { status := .connecting, reconnectAttempts := 0 } true
        = { state := { status := .connected, reconnectAttempts := 0 },
            retryScheduled := false } ∧
    checkConnection { status := .connecting, reconnectAttempts := 0 } false
        = { state := { status := .connecting, reconnectAttempts := 1 },
            retryScheduled := true } ∧
    checkConnection { status := .connecting, reconnectAttempts := 3 } false
        = { state := { status := .error, reconnectAttempts := 4 },
            retryScheduled := false } :=
  ⟨(connectivity_state_machine _).1,
   (connectivity_state_machine _).2.1 (by decide),
   (connectivity_state_machine _).2.2 (by decide)⟩
